import Mathlib

/-
Verification of the bookstore REST API (src/app.js together with the variant
copy embedded in src/database.sql, and the schema in src/database.sql).

Shallow embedding conventions:
- The relational store is a list of rows in table (insertion) order plus the
  auto-increment counter.  Timestamps are naturals; the current clock value is
  passed to every operation that stamps a row (CURRENT_TIMESTAMP and the
  JavaScript Date constructor).
- Each SQL statement issued by the program is a pure function on that state.
  A result set read without ORDER BY is modelled as table order.
- Promise chains are modelled by explicit outcome parameters: every call to
  conn.query or pool.query takes an oracle of type Option String, where
  some e means the call rejects with error message e and none means it
  succeeds with the result computed from the store model.  The same holds for
  pool.getConnection in the six data-access helper functions.  A rejection
  that no .catch in the function intercepts is returned as Except.error
  (an exception escaping the function); everything the code catches and turns
  into a response is Except.ok.
- The six data-access helper functions (insertNewBook, fetchAllBooks,
  fetchBookById, modifyBookById, removeBookById, findBooksByKeyword) are
  modelled with an instrumented pool: the trace of acquire and release events
  they perform, with connection identifiers numbered from 0 in acquisition
  order.  The program uses the promise API of the mysql2 driver, under which
  every query resolves with a two-element array of result and column
  metadata.  The live handlers destructure it (result[0]); the helpers do
  not, so in the helpers the length read on a select result is always 2
  (their not-found branches are unreachable), the element at index 0 is the
  whole rows array, and insertId and affectedRows read on the array are
  undefined (so the insert id is undefined and an affectedRows comparison
  with 0 is always false).  The helpers are modelled with exactly these
  consequences; the opaque metadata component is modelled by the jmeta
  value, and a property holding the JavaScript undefined is modelled as an
  absent key, matching its JSON serialization.
- The six live Express route handlers take the raw route parameter as a
  string (req.params.id); the numeric coercion the store applies to the
  string bind value is modelled by sqlStrToId.  JSON response bodies are
  values of the Jv type below.  A client field that is absent or null is
  modelled as none; the handlers echo none back as JSON null.
-/

/-- Model of a JSON value, used for every response body the program builds.
The jmeta value stands for the column-definition packet the driver pairs
with every query result; its internal structure is left opaque. -/
inductive Jv where
  | null : Jv
  | jbool : Bool → Jv
  | jnum : Int → Jv
  | jstr : String → Jv
  | jarr : List Jv → Jv
  | jobj : List (String × Jv) → Jv
  | jmeta : Jv

/-- First binding of a key in a JSON object field list. -/
def lookupField : List (String × Jv) → String → Option Jv
  | [], _ => none
  | (k2, v) :: rest, k => if k2 = k then some v else lookupField rest k

/-- Field access on a JSON value; none when the value is not an object. -/
def getField (j : Jv) (k : String) : Option Jv :=
  match j with
  | Jv.jobj fs => lookupField fs k
  | _ => none

/-- Whether a JSON value is an object carrying the given key. -/
def hasField (j : Jv) (k : String) : Bool :=
  (getField j k).isSome

/-- A row of the books table (src/database.sql): id INT AUTO_INCREMENT,
title and author NOT NULL, published_year and genre nullable, created_at
and updated_at TIMESTAMP. -/
structure Book where
  id : Nat
  title : String
  author : String
  published_year : Option Int
  genre : Option String
  created_at : Nat
  updated_at : Nat
deriving DecidableEq, Repr

/-- The store: rows in table (insertion) order plus the auto-increment
counter for id. -/
structure DB where
  rows : List Book
  nextId : Nat
deriving DecidableEq, Repr

/-- JSON encoding of a nullable integer column. -/
def jOptInt : Option Int → Jv
  | none => Jv.null
  | some n => Jv.jnum n

/-- JSON encoding of a nullable text column. -/
def jOptStr : Option String → Jv
  | none => Jv.null
  | some s => Jv.jstr s

/-- JSON object for one row, in the column order of the SELECT lists in
src/app.js. -/
def bookJson (b : Book) : Jv :=
  Jv.jobj [("id", Jv.jnum b.id), ("title", Jv.jstr b.title),
    ("author", Jv.jstr b.author), ("published_year", jOptInt b.published_year),
    ("genre", jOptStr b.genre), ("created_at", Jv.jnum b.created_at),
    ("updated_at", Jv.jnum b.updated_at)]

/-- Case-insensitive character comparison, modelling the case-insensitive
collation the books table uses. -/
def charCI (c d : Char) : Bool :=
  c.toLower == d.toLower

/-- Matching of a percent wildcard: the rest of the pattern, given as the
test f, may start at any suffix of the string. -/
def likeStar (f : List Char → Bool) : List Char → Bool
  | [] => f []
  | d :: s => f (d :: s) || likeStar f s

/-- MySQL LIKE matching of a pattern against a string, both already split
into characters.  Wildcards: the percent sign matches any sequence, the
underscore matches one character, and a backslash escapes the following
pattern character (a trailing backslash stands for itself).  Literal
characters compare case-insensitively. -/
def likeAux : List Char → List Char → Bool
  | [], s => s.isEmpty
  | p0 :: p, s =>
    if p0 = '%' then
      likeStar (likeAux p) s
    else if p0 = '_' then
      (match s with
       | [] => false
       | _ :: s2 => likeAux p s2)
    else if p0 = '\\' then
      (match p with
       | [] =>
         (match s with
          | [] => false
          | d :: s2 => charCI p0 d && likeAux [] s2)
       | c :: p2 =>
         (match s with
          | [] => false
          | d :: s2 => charCI c d && likeAux p2 s2))
    else
      (match s with
       | [] => false
       | d :: s2 => charCI p0 d && likeAux p s2)

/-- String form of LIKE: does s match the pattern pat. -/
def sqlLike (s : String) (pat : String) : Bool :=
  likeAux pat.data s.data

/-- The search pattern the program builds around the request term. -/
def likePattern (q : String) : String :=
  "%" ++ q ++ "%"

/-- WHERE clause of the search query: title LIKE p OR author LIKE p OR
genre LIKE p.  A NULL genre matches nothing, as NULL LIKE p is not true. -/
def rowMatchesLike (q : String) (b : Book) : Bool :=
  sqlLike b.title (likePattern q) || sqlLike b.author (likePattern q) ||
    (match b.genre with
     | none => false
     | some g => sqlLike g (likePattern q))

/-- INSERT INTO books (title, author, published_year, genre) VALUES (four
placeholders): appends a fresh row stamped with the current time and returns
the new store together with the insert id. -/
def sqlInsert (db : DB) (t a : String) (py : Option Int) (g : Option String)
    (now : Nat) : DB × Nat :=
  (⟨db.rows ++ [⟨db.nextId, t, a, py, g, now, now⟩], db.nextId + 1⟩, db.nextId)

/-- SELECT ... FROM books WHERE id equals the bound value. -/
def sqlSelectById (db : DB) (id : Nat) : List Book :=
  db.rows.filter (fun b => b.id == id)

/-- Insertion into a list kept in descending created_at order. -/
def insertDesc (b : Book) : List Book → List Book
  | [] => [b]
  | c :: rest =>
    if c.created_at ≤ b.created_at then b :: c :: rest
    else c :: insertDesc b rest

/-- ORDER BY created_at DESC, modelled as an insertion sort producing one
of the orders the store may return. -/
def sortByCreatedDesc : List Book → List Book
  | [] => []
  | b :: rest => insertDesc b (sortByCreatedDesc rest)

/-- Whether the submitted column values differ from the stored ones, the
condition under which an UPDATE actually changes the row and the schema
refreshes updated_at. -/
def bookChanged (t a : String) (py : Option Int) (g : Option String)
    (b : Book) : Bool :=
  !(b.title == t && b.author == a && b.published_year == py && b.genre == g)

/-- UPDATE books SET title, author, published_year, genre WHERE id equals
the bound value.  A matched row whose stored values already equal the
submitted ones is left untouched: setting identical values is no change,
and ON UPDATE CURRENT_TIMESTAMP (src/database.sql) refreshes updated_at
only on an actual change.  Returns the new store and the affected-row
count, which the driver reports as the matched-row count (its default
connection flags include FOUND_ROWS). -/
def sqlUpdateById (db : DB) (id : Nat) (t a : String) (py : Option Int)
    (g : Option String) (now : Nat) : DB × Nat :=
  (⟨db.rows.map (fun b =>
      if b.id == id && bookChanged t a py g b then
        { b with title := t, author := a, published_year := py,
                 genre := g, updated_at := now }
      else b), db.nextId⟩,
   db.rows.countP (fun b => b.id == id))

/-- DELETE FROM books WHERE id equals the bound value; returns the new
store and the affected-row count. -/
def sqlDeleteById (db : DB) (id : Nat) : DB × Nat :=
  (⟨db.rows.filter (fun b => !(b.id == id)), db.nextId⟩,
   db.rows.countP (fun b => b.id == id))

/-- Search result set of the live handler (no ORDER BY): table order. -/
def sqlSearch (db : DB) (q : String) : List Book :=
  db.rows.filter (rowMatchesLike q)

/-- Search result set of the findBooksByKeyword helper, which does order
by created_at descending. -/
def sqlSearchOrdered (db : DB) (q : String) : List Book :=
  sortByCreatedDesc (db.rows.filter (rowMatchesLike q))

/-- Pool instrumentation event: acquiring or releasing connection n. -/
inductive PEv where
  | acq : Nat → PEv
  | rel : Nat → PEv
deriving DecidableEq, Repr

/-- Replay of a pool event trace: the list of currently held connections,
or none once a connection is released that is not held. -/
def runTrace : List Nat → List PEv → Option (List Nat)
  | held, [] => some held
  | held, PEv.acq n :: rest => runTrace (n :: held) rest
  | held, PEv.rel n :: rest =>
    if n ∈ held then runTrace (held.erase n) rest else none

/-- A trace is well formed when every release matches a held connection and
no connection is still held at the end: each acquired connection is released
exactly once, never twice, never leaked. -/
def wfTrace (evs : List PEv) : Bool :=
  match runTrace [] evs with
  | some [] => true
  | _ => false

/-- Error envelope built by every .catch in the data-access helpers. -/
def errEnv (m e : String) : Jv :=
  Jv.jobj [("success", Jv.jbool false), ("message", Jv.jstr m),
    ("error", Jv.jstr e)]

/-- Truth of the success flag of an envelope, as tested by removeBookById. -/
def isSuccessEnv (j : Jv) : Bool :=
  match getField j "success" with
  | some (Jv.jbool b) => b
  | _ => false

/-- Data-access helper insertNewBook (src/app.js lines 36 to 66).  Oracle gc
is the pool.getConnection outcome, qr the INSERT outcome.  Returns the
envelope (or the escaped rejection), the store after the call, and the pool
event trace.  The insertId property is read on the undestructured result
pair, so it is undefined and the id key of the data object serializes to
nothing. -/
def insertNewBook (db : DB) (t a : String) (py : Option Int)
    (g : Option String) (now : Nat) (gc qr : Option String) :
    Except String Jv × DB × List PEv :=
  match gc with
  | some e => (Except.error e, db, [])
  | none =>
    match qr with
    | some e => (Except.ok (errEnv "Error creating book" e), db,
        [PEv.acq 0, PEv.rel 0])
    | none =>
      let res := sqlInsert db t a py g now
      (Except.ok (Jv.jobj [("success", Jv.jbool true),
         ("message", Jv.jstr "Book created successfully"),
         ("data", Jv.jobj [("title", Jv.jstr t),
           ("author", Jv.jstr a), ("published_year", jOptInt py),
           ("genre", jOptStr g), ("created_at", Jv.jnum now),
           ("updated_at", Jv.jnum now)])]),
       res.1, [PEv.acq 0, PEv.rel 0])

/-- Data-access helper fetchAllBooks (src/app.js lines 68 to 95).  The
length read and the data value act on the undestructured result pair, so
the count is 2 and the data is the pair of the rows array and the column
metadata. -/
def fetchAllBooks (db : DB) (gc qr : Option String) :
    Except String Jv × DB × List PEv :=
  match gc with
  | some e => (Except.error e, db, [])
  | none =>
    match qr with
    | some e => (Except.ok (errEnv "Error fetching books" e), db,
        [PEv.acq 0, PEv.rel 0])
    | none =>
      let books := sortByCreatedDesc db.rows
      (Except.ok (Jv.jobj [("success", Jv.jbool true),
         ("message", Jv.jstr "Books retrieved successfully"),
         ("count", Jv.jnum 2),
         ("data", Jv.jarr [Jv.jarr (books.map bookJson), Jv.jmeta])]),
       db, [PEv.acq 0, PEv.rel 0])

/-- Data-access helper fetchBookById (src/app.js lines 97 to 130).  The
parameter c is the identifier the instrumented pool gives the connection
this call acquires.  The length read on the undestructured result pair is
always 2, so the not-found branch is unreachable and the data value, the
element at index 0 of the pair, is the whole rows array, empty or not. -/
def fetchBookById (db : DB) (id : Nat) (c : Nat) (gc qr : Option String) :
    Except String Jv × DB × List PEv :=
  match gc with
  | some e => (Except.error e, db, [])
  | none =>
    match qr with
    | some e => (Except.ok (errEnv "Error fetching book" e), db,
        [PEv.acq c, PEv.rel c])
    | none =>
      (Except.ok (Jv.jobj [("success", Jv.jbool true),
         ("message", Jv.jstr "Book retrieved successfully"),
         ("data", Jv.jarr ((sqlSelectById db id).map bookJson))]),
       db, [PEv.acq c, PEv.rel c])

/-- Data-access helper modifyBookById (src/app.js lines 132 to 164): runs
the UPDATE, then re-fetches through fetchBookById (which acquires a second
connection) and returns that response; its own connection is released after
the nested call returns, or in the .catch when the nested call rejects.
The affectedRows property is read on the undestructured result pair, so it
is undefined, the comparison with 0 is always false, and the not-found
branch is unreachable. -/
def modifyBookById (db : DB) (id : Nat) (t a : String) (py : Option Int)
    (g : Option String) (now : Nat) (gc qUpd gcF qF : Option String) :
    Except String Jv × DB × List PEv :=
  match gc with
  | some e => (Except.error e, db, [])
  | none =>
    match qUpd with
    | some e => (Except.ok (errEnv "Error updating book" e), db,
        [PEv.acq 0, PEv.rel 0])
    | none =>
      let upd := sqlUpdateById db id t a py g now
      let f := fetchBookById upd.1 id 1 gcF qF
      match f.1 with
      | Except.ok resp =>
        (Except.ok resp, upd.1, PEv.acq 0 :: (f.2.2 ++ [PEv.rel 0]))
      | Except.error e =>
        (Except.ok (errEnv "Error updating book" e), upd.1,
         PEv.acq 0 :: (f.2.2 ++ [PEv.rel 0]))

/-- Data-access helper removeBookById (src/app.js lines 166 to 194): reads
through fetchBookById before deleting, returns that pre-deletion data (the
rows array as it existed before the DELETE) in the success envelope, and
forwards the fetch response unchanged when its success flag is false, which
happens exactly when the fetch query itself failed. -/
def removeBookById (db : DB) (id : Nat) (gc gcF qF qd : Option String) :
    Except String Jv × DB × List PEv :=
  match gc with
  | some e => (Except.error e, db, [])
  | none =>
    let f := fetchBookById db id 1 gcF qF
    match f.1 with
    | Except.error e =>
      (Except.ok (errEnv "Error deleting book" e), db,
       PEv.acq 0 :: (f.2.2 ++ [PEv.rel 0]))
    | Except.ok resp =>
      if isSuccessEnv resp then
        match qd with
        | some e =>
          (Except.ok (errEnv "Error deleting book" e), db,
           PEv.acq 0 :: (f.2.2 ++ [PEv.rel 0]))
        | none =>
          (Except.ok (Jv.jobj [("success", Jv.jbool true),
             ("message", Jv.jstr "Book deleted successfully"),
             ("data", (getField resp "data").getD Jv.null)]),
           (sqlDeleteById db id).1, PEv.acq 0 :: (f.2.2 ++ [PEv.rel 0]))
      else (Except.ok resp, db, PEv.acq 0 :: (f.2.2 ++ [PEv.rel 0]))

/-- Data-access helper findBooksByKeyword (src/app.js lines 196 to 226).
Its query does order by created_at descending, but the length read and the
data value act on the undestructured result pair, so the count is 2 and the
data is the pair of the ordered rows array and the column metadata. -/
def findBooksByKeyword (db : DB) (q : String) (gc qr : Option String) :
    Except String Jv × DB × List PEv :=
  match gc with
  | some e => (Except.error e, db, [])
  | none =>
    match qr with
    | some e => (Except.ok (errEnv "Error searching books" e), db,
        [PEv.acq 0, PEv.rel 0])
    | none =>
      let books := sqlSearchOrdered db q
      (Except.ok (Jv.jobj [("success", Jv.jbool true),
         ("message", Jv.jstr "Search completed successfully"),
         ("count", Jv.jnum 2), ("searchTerm", Jv.jstr q),
         ("data", Jv.jarr [Jv.jarr (books.map bookJson), Jv.jmeta])]),
       db, [PEv.acq 0, PEv.rel 0])

/-- JavaScript falsiness of an optional string input: absent (or null) and
the empty string are falsy, as tested by the validation guards. -/
def falsy : Option String → Bool
  | none => true
  | some s => s = ""

/-- Decimal reading of a character list; none when a non-digit occurs. -/
def decDigits : List Char → Nat → Option Nat
  | [], acc => some acc
  | c :: rest, acc =>
    if c.isDigit then decDigits rest (acc * 10 + (c.toNat - 48)) else none

/-- Numeric value the store gives the string route parameter when binding
it against the integer id column: a decimal string is read as its number,
anything non-numeric coerces to 0 and so matches no row. -/
def sqlStrToId (s : String) : Nat :=
  (decDigits s.data 0).getD 0

/-- Route handlers return ok with status code, body, the store after the
request, and the number of data-access calls made; error would mean an
exception escaped the handler into the framework (none does). -/
def HOut : Type :=
  Except String ((Nat × Jv) × DB × Nat)

/-- Status code of a handler outcome (0 when the handler escaped). -/
def statusOf : HOut → Nat
  | Except.ok ((c, _), _, _) => c
  | Except.error _ => 0

/-- Response body of a handler outcome. -/
def bodyOf : HOut → Jv
  | Except.ok ((_, b), _, _) => b
  | Except.error _ => Jv.null

/-- Store state after a handler outcome. -/
def dbAfter : HOut → DB
  | Except.ok (_, d, _) => d
  | Except.error _ => ⟨[], 0⟩

/-- Number of data-access calls a handler outcome performed. -/
def callsOf : HOut → Nat
  | Except.ok (_, _, n) => n
  | Except.error _ => 0

/-- Whether the handler produced a response rather than escaping. -/
def handled : HOut → Bool
  | Except.ok _ => true
  | Except.error _ => false

/-- Live handler POST /api/books (src/app.js lines 228 to 242): validates
presence of title and author, then inserts directly through the pool and
echoes the submitted fields plus the insert id. -/
def postApiBooks (db : DB) (title author : Option String) (py : Option Int)
    (g : Option String) (now : Nat) (qr : Option String) : HOut :=
  if falsy title || falsy author then
    Except.ok ((400, Jv.jobj [("error", Jv.jstr "Title and author required")]),
      db, 0)
  else
    match qr with
    | some e => Except.ok ((500, Jv.jobj [("error", Jv.jstr e)]), db, 1)
    | none =>
      let t := title.getD ""
      let a := author.getD ""
      let res := sqlInsert db t a py g now
      Except.ok ((200, Jv.jobj [("id", Jv.jnum res.2), ("title", Jv.jstr t),
        ("author", Jv.jstr a), ("published_year", jOptInt py),
        ("genre", jOptStr g)]), res.1, 1)

/-- Live handler GET /api/books (src/app.js lines 244 to 252): responds
with the bare array of rows ordered by created_at descending. -/
def getApiBooks (db : DB) (qr : Option String) : HOut :=
  match qr with
  | some e => Except.ok ((500, Jv.jobj [("error", Jv.jstr e)]), db, 1)
  | none =>
    Except.ok ((200, Jv.jarr ((sortByCreatedDesc db.rows).map bookJson)),
      db, 1)

/-- Live handler GET /api/books/search (src/app.js lines 254 to 268):
requires a non-falsy q, then responds with the bare array of rows matching
the LIKE disjunction; this query has no ORDER BY. -/
def getApiBooksSearch (db : DB) (q : Option String) (qr : Option String) :
    HOut :=
  if falsy q then
    Except.ok ((400, Jv.jobj [("error", Jv.jstr "Search term required")]),
      db, 0)
  else
    match qr with
    | some e => Except.ok ((500, Jv.jobj [("error", Jv.jstr e)]), db, 1)
    | none =>
      Except.ok ((200, Jv.jarr ((sqlSearch db (q.getD "")).map bookJson)),
        db, 1)

/-- Live handler GET /api/books/:id (src/app.js lines 270 to 282). -/
def getApiBooksId (db : DB) (idStr : String) (qr : Option String) : HOut :=
  match qr with
  | some e => Except.ok ((500, Jv.jobj [("error", Jv.jstr e)]), db, 1)
  | none =>
    match sqlSelectById db (sqlStrToId idStr) with
    | [] => Except.ok ((404, Jv.jobj [("error", Jv.jstr "Book not found")]),
        db, 1)
    | b :: _ => Except.ok ((200, bookJson b), db, 1)

/-- Live handler PUT /api/books/:id (src/app.js lines 284 to 302): validates
presence of title and author, runs the UPDATE, answers 404 when no row was
affected, and otherwise echoes the submitted fields with the raw id string,
without re-reading the stored row. -/
def putApiBooksId (db : DB) (idStr : String) (title author : Option String)
    (py : Option Int) (g : Option String) (now : Nat) (qr : Option String) :
    HOut :=
  if falsy title || falsy author then
    Except.ok ((400, Jv.jobj [("error", Jv.jstr "Title and author required")]),
      db, 0)
  else
    match qr with
    | some e => Except.ok ((500, Jv.jobj [("error", Jv.jstr e)]), db, 1)
    | none =>
      let t := title.getD ""
      let a := author.getD ""
      let upd := sqlUpdateById db (sqlStrToId idStr) t a py g now
      if upd.2 = 0 then
        Except.ok ((404, Jv.jobj [("error", Jv.jstr "Book not found")]),
          upd.1, 1)
      else
        Except.ok ((200, Jv.jobj [("id", Jv.jstr idStr),
          ("title", Jv.jstr t), ("author", Jv.jstr a),
          ("published_year", jOptInt py), ("genre", jOptStr g)]), upd.1, 1)

/-- Live handler DELETE /api/books/:id (src/app.js lines 304 to 316):
deletes directly, answers 404 when no row was affected, and otherwise
responds with a bare deletion message. -/
def deleteApiBooksId (db : DB) (idStr : String) (qr : Option String) : HOut :=
  match qr with
  | some e => Except.ok ((500, Jv.jobj [("error", Jv.jstr e)]), db, 1)
  | none =>
    let del := sqlDeleteById db (sqlStrToId idStr)
    if del.2 = 0 then
      Except.ok ((404, Jv.jobj [("error", Jv.jstr "Book not found")]),
        del.1, 1)
    else
      Except.ok ((200, Jv.jobj [("message", Jv.jstr "Book deleted")]),
        del.1, 1)

/-- Final error-handling middleware (src/app.js lines 343 to 386): remaps
known store fault codes, otherwise uses the statusCode and message carried
by the error, with defaults 500 and a generic message. -/
def errorMiddleware (code : Option String) (msg : String)
    (statusCode : Option Nat) : Nat × Jv :=
  let remap : Option (String × Nat) :=
    if code = some "ER_DUP_ENTRY" then
      some ("Duplicate field value entered", 400)
    else if code = some "ER_NO_REFERENCED_ROW_2" then
      some ("Referenced record not found", 400)
    else if code = some "ER_BAD_FIELD_ERROR" then
      some ("Invalid field name", 400)
    else if code = some "ER_ACCESS_DENIED_ERROR" then
      some ("Database access denied. Check your credentials.", 500)
    else if code = some "ECONNREFUSED" then
      some ("Database connection refused. Check if MySQL is running.", 500)
    else if code = some "ER_BAD_DB_ERROR" then
      some ("Database does not exist.", 500)
    else none
  match remap with
  | some (m, sc) =>
    (sc, Jv.jobj [("success", Jv.jbool false), ("message", Jv.jstr m)])
  | none =>
    ((statusCode.getD 500),
     Jv.jobj [("success", Jv.jbool false),
       ("message", Jv.jstr (if msg = "" then "Internal Server Error" else msg))])

/-- Spec-side predicate (from the spec wording): the envelope is the uniform
wrapper carrying a success field and a message field. -/
def inEnvelope (j : Jv) : Bool :=
  hasField j "success" && hasField j "message"

/-- Spec-side predicate on helper results: every response the helper
produced (escaped rejections produce no response) is in the envelope. -/
def okInEnvelope : Except String Jv → Bool
  | Except.error _ => true
  | Except.ok j => inEnvelope j

/-- Spec-side predicate (from the claim wording): hay contains term as a
case-insensitive substring. -/
def containsCI (hay term : String) : Bool :=
  decide ((term.data.map Char.toLower) <:+: (hay.data.map Char.toLower))

/-- Spec-side predicate (from the claim wording): the row matches the search
term when its title, author, or genre contains it case-insensitively. -/
def specMatches (q : String) (b : Book) : Bool :=
  containsCI b.title q || containsCI b.author q ||
    (match b.genre with
     | none => false
     | some g => containsCI g q)

/-- A term is wildcard-free when it contains none of the three characters
LIKE treats specially. -/
def cleanChar (c : Char) : Bool :=
  !(c = '%' || c = '_' || c = '\\')

/-- Wildcard-free search terms. -/
def cleanTerm (q : String) : Bool :=
  q.data.all cleanChar

/-- Case-insensitive pointwise match of a wildcard-free pattern segment
against the start of a string. -/
def headMatch : List Char → List Char → Bool
  | [], _ => true
  | _ :: _, [] => false
  | c :: cs, d :: s => charCI c d && headMatch cs s

/-- Case-insensitive occurrence of a wildcard-free pattern segment anywhere
in a string. -/
def subMatch (cs : List Char) : List Char → Bool
  | [] => headMatch cs []
  | d :: s => headMatch cs (d :: s) || subMatch cs s

/-- Unfolding of LIKE at a leading percent wildcard. -/
theorem likeAux_pct (p s : List Char) :
    likeAux ('%' :: p) s = likeStar (likeAux p) s := by
  conv_lhs => rw [likeAux.eq_def]
  simp

/-- A pattern consisting of a single percent matches everything. -/
theorem likeAux_allPct (s : List Char) : likeAux ['%'] s = true := by
  induction s with
  | nil => rw [likeAux_pct]; rfl
  | cons d s2 ih =>
    rw [likeAux_pct] at ih ⊢
    rw [likeStar, ih]
    simp

/-- Unfolding of LIKE at a wildcard-free pattern head and empty string. -/
theorem likeAux_lit_nil (c : Char) (p : List Char) (h : cleanChar c = true) :
    likeAux (c :: p) [] = false := by
  simp only [cleanChar, Bool.not_eq_true', Bool.or_eq_false_iff,
    decide_eq_false_iff_not] at h
  conv_lhs => rw [likeAux.eq_def]
  simp only [h.1.1, h.1.2, h.2, if_false, ite_false]

/-- Unfolding of LIKE at a wildcard-free pattern head and nonempty string. -/
theorem likeAux_lit_cons (c : Char) (p : List Char) (d : Char)
    (s : List Char) (h : cleanChar c = true) :
    likeAux (c :: p) (d :: s) = (charCI c d && likeAux p s) := by
  simp only [cleanChar, Bool.not_eq_true', Bool.or_eq_false_iff,
    decide_eq_false_iff_not] at h
  conv_lhs => rw [likeAux.eq_def]
  simp only [h.1.1, h.1.2, h.2, if_false, ite_false]

/-- A wildcard-free segment followed by a final percent matches exactly the
strings the segment starts. -/
theorem likeAux_clean_pct (cs : List Char) (h : cs.all cleanChar = true) :
    ∀ s : List Char, likeAux (cs ++ ['%']) s = headMatch cs s := by
  induction cs with
  | nil => intro s; simpa [headMatch] using likeAux_allPct s
  | cons c cs ih =>
    have h2 := h
    rw [List.all_cons, Bool.and_eq_true] at h2
    obtain ⟨hc, hcs⟩ := h2
    intro s
    cases s with
    | nil => rw [List.cons_append, likeAux_lit_nil c _ hc]; rfl
    | cons d s2 =>
      rw [List.cons_append, likeAux_lit_cons c _ d s2 hc, headMatch, ih hcs]

/-- The full search pattern, percent on both sides of a wildcard-free term,
matches exactly the strings containing the term. -/
theorem likeAux_pct_clean (cs : List Char) (h : cs.all cleanChar = true) :
    ∀ s : List Char, likeAux ('%' :: (cs ++ ['%'])) s = subMatch cs s := by
  intro s
  rw [likeAux_pct]
  induction s with
  | nil => rw [likeStar, subMatch, likeAux_clean_pct cs h]
  | cons d s2 ih => rw [likeStar, subMatch, likeAux_clean_pct cs h, ih]

/-- Pointwise case-insensitive matching coincides with list prefixing of the
lowered characters. -/
theorem headMatch_iff (cs : List Char) :
    ∀ s : List Char,
      (headMatch cs s = true ↔
        (cs.map Char.toLower) <+: (s.map Char.toLower)) := by
  induction cs with
  | nil => intro s; simp [headMatch, List.nil_prefix]
  | cons c cs ih =>
    intro s
    cases s with
    | nil =>
      simp only [headMatch, List.map_cons, List.map_nil, Bool.false_eq_true,
        false_iff]
      intro hp
      have := List.prefix_nil.mp hp
      simp at this
    | cons d s2 =>
      simp only [headMatch, List.map_cons, Bool.and_eq_true,
        List.cons_prefix_cons, charCI, beq_iff_eq]
      exact and_congr Iff.rfl (ih s2)

/-- Case-insensitive occurrence coincides with list infixing of the lowered
characters. -/
theorem subMatch_iff (cs : List Char) :
    ∀ s : List Char,
      (subMatch cs s = true ↔
        (cs.map Char.toLower) <:+: (s.map Char.toLower)) := by
  intro s
  induction s with
  | nil =>
    rw [subMatch]
    rw [headMatch_iff]
    simp [List.prefix_nil, List.infix_nil]
  | cons d s2 ih =>
    rw [subMatch]
    simp only [Bool.or_eq_true, headMatch_iff, ih, List.map_cons]
    rw [List.infix_cons_iff]

/-- Character list of the built search pattern. -/
theorem likePattern_data (q : String) :
    (likePattern q).data = '%' :: (q.data ++ ['%']) := by
  cases q
  rfl

/-- For a wildcard-free term the LIKE test is exactly the case-insensitive
substring test of the claim. -/
theorem sqlLike_clean (q s : String) (h : cleanTerm q = true) :
    sqlLike s (likePattern q) = containsCI s q := by
  rw [sqlLike, likePattern_data, likeAux_pct_clean q.data h, Bool.eq_iff_iff]
  simp [subMatch_iff, containsCI]

/-- For a wildcard-free term the WHERE clause of the search query agrees
with the spec-side match predicate. -/
theorem rowMatchesLike_clean (q : String) (h : cleanTerm q = true)
    (b : Book) : rowMatchesLike q b = specMatches q b := by
  cases hg : b.genre with
  | none =>
    simp [rowMatchesLike, specMatches, hg, sqlLike_clean q b.title h,
      sqlLike_clean q b.author h]
  | some g =>
    simp [rowMatchesLike, specMatches, hg, sqlLike_clean q b.title h,
      sqlLike_clean q b.author h, sqlLike_clean q g h]

/-- Membership in the descending insertion. -/
theorem mem_insertDesc (a b : Book) (l : List Book) :
    a ∈ insertDesc b l ↔ a = b ∨ a ∈ l := by
  induction l with
  | nil => simp [insertDesc]
  | cons c rest ih =>
    by_cases hc : c.created_at ≤ b.created_at
    · simp [insertDesc, hc]
    · simp only [insertDesc, if_neg hc, List.mem_cons, ih]
      tauto

/-- Inserting into a descending list keeps it descending. -/
theorem pairwise_insertDesc (b : Book) (l : List Book)
    (h : l.Pairwise (fun x y => y.created_at ≤ x.created_at)) :
    (insertDesc b l).Pairwise (fun x y => y.created_at ≤ x.created_at) := by
  induction l with
  | nil => simp [insertDesc]
  | cons c rest ih =>
    rcases List.pairwise_cons.mp h with ⟨hc, hrest⟩
    by_cases hcb : c.created_at ≤ b.created_at
    · rw [insertDesc, if_pos hcb]
      refine List.pairwise_cons.mpr ⟨?_, h⟩
      intro y hy
      rcases List.mem_cons.mp hy with rfl | hy2
      · exact hcb
      · exact le_trans (hc y hy2) hcb
    · rw [insertDesc, if_neg hcb]
      refine List.pairwise_cons.mpr ⟨?_, ih hrest⟩
      intro y hy
      rcases (mem_insertDesc y b rest).mp hy with rfl | hy2
      · omega
      · exact hc y hy2

/-- The descending sort keeps exactly the members of the list. -/
theorem mem_sortByCreatedDesc (a : Book) (l : List Book) :
    a ∈ sortByCreatedDesc l ↔ a ∈ l := by
  induction l with
  | nil => simp [sortByCreatedDesc]
  | cons b rest ih => simp [sortByCreatedDesc, mem_insertDesc, ih]

/-- The descending sort is sorted by created_at descending. -/
theorem pairwise_sortByCreatedDesc (l : List Book) :
    (sortByCreatedDesc l).Pairwise
      (fun x y => y.created_at ≤ x.created_at) := by
  induction l with
  | nil => simp [sortByCreatedDesc]
  | cons b rest ih => exact pairwise_insertDesc b _ ih

/-- Selecting by id after deleting that id yields nothing. -/
theorem select_after_delete (l : List Book) (id : Nat) :
    (l.filter (fun b => !(b.id == id))).filter (fun b => b.id == id) = [] := by
  apply List.filter_eq_nil_iff.mpr
  intro b hb
  have hmem := List.mem_filter.mp hb
  simp only [Bool.not_eq_true'] at hmem
  simp [hmem.2]

/-- Deleting an id matching no row leaves the row list unchanged. -/
theorem delete_miss (l : List Book) (id : Nat)
    (h : l.countP (fun b => b.id == id) = 0) :
    l.filter (fun b => !(b.id == id)) = l := by
  apply List.filter_eq_self.mpr
  intro b hb
  have hz := List.countP_eq_zero.mp h b hb
  simp only [Bool.not_eq_true] at hz
  simp [hz]

/-- Claim C5: a Create request whose title or author is missing or empty is
rejected with status 400 and the validation error body, no data-access call
is made, and the store is unchanged. -/
theorem C5_create_validation (db : DB) (title author : Option String)
    (py : Option Int) (g : Option String) (now : Nat) (qr : Option String)
    (h : (falsy title || falsy author) = true) :
    postApiBooks db title author py g now qr =
      Except.ok ((400,
        Jv.jobj [("error", Jv.jstr "Title and author required")]), db, 0) := by
  simp [postApiBooks, h]

/-- Witness for C5 at a concrete request with an empty title. -/
theorem C5_create_validation_witness :
    (falsy (some "") || falsy (some "A")) = true ∧
      postApiBooks ⟨[], 1⟩ (some "") (some "A") none none 7 none =
        Except.ok ((400,
          Jv.jobj [("error", Jv.jstr "Title and author required")]),
          ⟨[], 1⟩, 0) :=
  ⟨by decide,
   C5_create_validation ⟨[], 1⟩ (some "") (some "A") none none 7 none
     (by decide)⟩

/-- Claim C6: Delete on an existing id removes the row, so a subsequent
GetById with the same id parameter answers 404; Delete on a nonexistent id
answers 404 and leaves the store completely unchanged. -/
theorem C6_delete_then_get (db : DB) (idStr : String) :
    (0 < db.rows.countP (fun b => b.id == sqlStrToId idStr) →
      statusOf (deleteApiBooksId db idStr none) = 200 ∧
      statusOf (getApiBooksId (dbAfter (deleteApiBooksId db idStr none))
        idStr none) = 404 ∧
      bodyOf (getApiBooksId (dbAfter (deleteApiBooksId db idStr none))
        idStr none) = Jv.jobj [("error", Jv.jstr "Book not found")]) ∧
    (db.rows.countP (fun b => b.id == sqlStrToId idStr) = 0 →
      deleteApiBooksId db idStr none =
        Except.ok ((404, Jv.jobj [("error", Jv.jstr "Book not found")]),
          db, 1)) := by
  constructor
  · intro h
    have h0 : ¬ (db.rows.countP (fun b => b.id == sqlStrToId idStr) = 0) := by
      omega
    refine ⟨?_, ?_, ?_⟩ <;>
      simp [deleteApiBooksId, sqlDeleteById, h0, statusOf, dbAfter,
        getApiBooksId, sqlSelectById, bodyOf, select_after_delete]
  · intro h
    have hf := delete_miss db.rows (sqlStrToId idStr) h
    simp [deleteApiBooksId, sqlDeleteById, h, hf]

/-- Witness for C6 at a one-row store and at an empty store. -/
theorem C6_delete_then_get_witness :
    (0 < (⟨[⟨1, "A", "B", none, none, 0, 0⟩], 2⟩ : DB).rows.countP
        (fun b => b.id == sqlStrToId "1") ∧
      statusOf (getApiBooksId
        (dbAfter (deleteApiBooksId ⟨[⟨1, "A", "B", none, none, 0, 0⟩], 2⟩
          "1" none)) "1" none) = 404) ∧
    ((⟨[], 1⟩ : DB).rows.countP (fun b => b.id == sqlStrToId "5") = 0 ∧
      deleteApiBooksId ⟨[], 1⟩ "5" none =
        Except.ok ((404, Jv.jobj [("error", Jv.jstr "Book not found")]),
          ⟨[], 1⟩, 1)) :=
  ⟨⟨by decide,
    ((C6_delete_then_get ⟨[⟨1, "A", "B", none, none, 0, 0⟩], 2⟩ "1").1
      (by decide)).2.1⟩,
   ⟨by decide, (C6_delete_then_get ⟨[], 1⟩ "5").2 (by decide)⟩⟩

/-- Claim C7 counterexample: resubmitting the stored values of an existing
row is a successful Update (a row is matched, the endpoint answers 200),
yet setting identical values changes nothing, ON UPDATE CURRENT_TIMESTAMP
does not fire, and updated_at does not advance: the store is unchanged. -/
theorem C7_update_counterexample :
    statusOf (putApiBooksId ⟨[⟨1, "T", "A", none, none, 0, 5⟩], 2⟩ "1"
      (some "T") (some "A") none none 9 none) = 200 ∧
    dbAfter (putApiBooksId ⟨[⟨1, "T", "A", none, none, 0, 5⟩], 2⟩ "1"
      (some "T") (some "A") none none 9 none) =
      ⟨[⟨1, "T", "A", none, none, 0, 5⟩], 2⟩ :=
  ⟨rfl, rfl⟩

/-- Claim C7 (amended): a successful Update modifies exactly the rows
carrying the given id, and only when the submitted values differ from the
stored ones: then the four editable columns are overwritten and updated_at
is refreshed, strictly advancing when the clock is ahead of the stored
stamp, while id and created_at are kept; a matching row whose stored values
already equal the submitted ones is left completely unchanged, updated_at
included, because ON UPDATE CURRENT_TIMESTAMP fires only on an actual
change; every other row is untouched. -/
theorem C7_update_frame_amended (db : DB) (idStr : String) (t a : String)
    (py : Option Int) (g : Option String) (now : Nat)
    (ht : ¬ t = "") (ha : ¬ a = "")
    (hsucc : 0 < db.rows.countP (fun b => b.id == sqlStrToId idStr))
    (htime : ∀ b ∈ db.rows, b.id = sqlStrToId idStr → b.updated_at < now) :
    statusOf (putApiBooksId db idStr (some t) (some a) py g now none) = 200 ∧
    (dbAfter (putApiBooksId db idStr (some t) (some a) py g now
      none)).rows.length = db.rows.length ∧
    (∀ i : Nat, ∀ b b2 : Book, db.rows[i]? = some b →
      (dbAfter (putApiBooksId db idStr (some t) (some a) py g now
        none)).rows[i]? = some b2 →
      ((¬ b.id = sqlStrToId idStr → b2 = b) ∧
       (b.id = sqlStrToId idStr → bookChanged t a py g b = true →
         b2 = { b with title := t, author := a, published_year := py,
                       genre := g, updated_at := now } ∧
         b2.id = b.id ∧ b2.created_at = b.created_at ∧
         b.updated_at < b2.updated_at) ∧
       (b.id = sqlStrToId idStr → bookChanged t a py g b = false →
         b2 = b))) := by
  have hfal : (falsy (some t) || falsy (some a)) = false := by
    simp [falsy, ht, ha]
  have hne : ¬ (db.rows.countP (fun b => b.id == sqlStrToId idStr) = 0) := by
    omega
  refine ⟨?_, ?_, ?_⟩
  · simp [putApiBooksId, hfal, sqlUpdateById, hne, statusOf]
  · simp [putApiBooksId, hfal, sqlUpdateById, hne, dbAfter]
  · intro i b b2 hb hb2
    have hdb : (dbAfter (putApiBooksId db idStr (some t) (some a) py g now
        none)).rows = db.rows.map (fun b =>
          if b.id == sqlStrToId idStr && bookChanged t a py g b then
            { b with title := t, author := a, published_year := py,
                     genre := g, updated_at := now }
          else b) := by
      simp [putApiBooksId, hfal, sqlUpdateById, hne, dbAfter]
    rw [hdb, List.getElem?_map, hb] at hb2
    have hb2e : b2 = (if b.id == sqlStrToId idStr && bookChanged t a py g b
        then { b with title := t, author := a, published_year := py,
                      genre := g, updated_at := now }
        else b) := (Option.some.inj hb2).symm
    refine ⟨?_, ?_, ?_⟩
    · intro hid
      rw [hb2e]
      simp [hid]
    · intro hid hch
      have hlt := htime b (List.getElem?_mem hb) hid
      rw [hb2e]
      simp [hid, hch]
      omega
    · intro hid hch
      rw [hb2e]
      simp [hid, hch]

/-- Witness for the amended C7 at a concrete one-row store and a
value-changing update. -/
theorem C7_update_frame_amended_witness :
    (¬ "X" = "") ∧
    (0 < (⟨[⟨1, "A", "B", none, none, 0, 3⟩], 2⟩ : DB).rows.countP
      (fun b => b.id == sqlStrToId "1")) ∧
    statusOf (putApiBooksId ⟨[⟨1, "A", "B", none, none, 0, 3⟩], 2⟩ "1"
      (some "X") (some "Y") none none 9 none) = 200 :=
  ⟨by decide, by decide,
   (C7_update_frame_amended ⟨[⟨1, "A", "B", none, none, 0, 3⟩], 2⟩ "1" "X"
     "Y" none none 9 (by decide) (by decide) (by decide) (by decide)).1⟩

/-- Claim C1 counterexample: the ListAll success response of the live
endpoint is a bare array carrying neither a success nor a message field,
contradicting the claim that every response of the six book endpoints
carries both. -/
theorem C1_envelope_counterexample :
    bodyOf (getApiBooks ⟨[], 1⟩ none) = Jv.jarr [] ∧
    hasField (bodyOf (getApiBooks ⟨[], 1⟩ none)) "success" = false ∧
    hasField (bodyOf (getApiBooks ⟨[], 1⟩ none)) "message" = false :=
  ⟨rfl, rfl, rfl⟩

/-- Claim C1 (amended): the six data-access helper functions wrap every
response they produce in the uniform envelope carrying success and message
fields, but the six live book endpoints bypass them: no response body a
book endpoint sends carries a success field. -/
theorem C1_envelope_amended :
    (∀ db t a py g now gc qr,
      okInEnvelope (insertNewBook db t a py g now gc qr).1 = true) ∧
    (∀ db gc qr, okInEnvelope (fetchAllBooks db gc qr).1 = true) ∧
    (∀ db id c gc qr, okInEnvelope (fetchBookById db id c gc qr).1 = true) ∧
    (∀ db id t a py g now gc qUpd gcF qF,
      okInEnvelope (modifyBookById db id t a py g now gc qUpd gcF qF).1 =
        true) ∧
    (∀ db id gc gcF qF qd,
      okInEnvelope (removeBookById db id gc gcF qF qd).1 = true) ∧
    (∀ db q gc qr, okInEnvelope (findBooksByKeyword db q gc qr).1 = true) ∧
    (∀ db title author py g now qr,
      hasField (bodyOf (postApiBooks db title author py g now qr))
        "success" = false) ∧
    (∀ db qr, hasField (bodyOf (getApiBooks db qr)) "success" = false) ∧
    (∀ db q qr,
      hasField (bodyOf (getApiBooksSearch db q qr)) "success" = false) ∧
    (∀ db idStr qr,
      hasField (bodyOf (getApiBooksId db idStr qr)) "success" = false) ∧
    (∀ db idStr title author py g now qr,
      hasField (bodyOf (putApiBooksId db idStr title author py g now qr))
        "success" = false) ∧
    (∀ db idStr qr,
      hasField (bodyOf (deleteApiBooksId db idStr qr)) "success" = false) := by
  refine ⟨?_, ?_, ?_, ?_, ?_, ?_, ?_, ?_, ?_, ?_, ?_, ?_⟩
  · intro db t a py g now gc qr
    cases gc with
    | some e => rfl
    | none =>
      cases qr with
      | some e =>
        simp [insertNewBook, okInEnvelope, inEnvelope, hasField, getField,
          lookupField, errEnv]
      | none =>
        simp [insertNewBook, okInEnvelope, inEnvelope, hasField, getField,
          lookupField]
  · intro db gc qr
    cases gc with
    | some e => rfl
    | none =>
      cases qr with
      | some e =>
        simp [fetchAllBooks, okInEnvelope, inEnvelope, hasField, getField,
          lookupField, errEnv]
      | none =>
        simp [fetchAllBooks, okInEnvelope, inEnvelope, hasField, getField,
          lookupField]
  · intro db id c gc qr
    cases gc with
    | some e => rfl
    | none =>
      cases qr with
      | some e =>
        simp [fetchBookById, okInEnvelope, inEnvelope, hasField, getField,
          lookupField, errEnv]
      | none =>
        simp [fetchBookById, okInEnvelope, inEnvelope, hasField,
          getField, lookupField]
  · intro db id t a py g now gc qUpd gcF qF
    cases gc with
    | some e => rfl
    | none =>
      cases qUpd with
      | some e =>
        simp [modifyBookById, okInEnvelope, inEnvelope, hasField, getField,
          lookupField, errEnv]
      | none =>
        cases gcF with
        | some e =>
          simp [modifyBookById, fetchBookById, okInEnvelope,
            inEnvelope, hasField, getField, lookupField, errEnv]
        | none =>
          cases qF with
          | some e =>
            simp [modifyBookById, fetchBookById, okInEnvelope,
              inEnvelope, hasField, getField, lookupField, errEnv]
          | none =>
            simp [modifyBookById, fetchBookById, okInEnvelope,
              inEnvelope, hasField, getField, lookupField]
  · intro db id gc gcF qF qd
    cases gc with
    | some e => rfl
    | none =>
      cases gcF with
      | some e =>
        simp [removeBookById, fetchBookById, okInEnvelope, inEnvelope,
          hasField, getField, lookupField, errEnv]
      | none =>
        cases qF with
        | some e =>
          simp [removeBookById, fetchBookById, okInEnvelope, inEnvelope,
            hasField, getField, lookupField, errEnv, isSuccessEnv]
        | none =>
          cases qd with
          | some e =>
            simp [removeBookById, fetchBookById, okInEnvelope,
              inEnvelope, hasField, getField, lookupField, errEnv,
              isSuccessEnv]
          | none =>
            simp [removeBookById, fetchBookById, okInEnvelope,
              inEnvelope, hasField, getField, lookupField, isSuccessEnv]
  · intro db q gc qr
    cases gc with
    | some e => rfl
    | none =>
      cases qr with
      | some e =>
        simp [findBooksByKeyword, okInEnvelope, inEnvelope, hasField,
          getField, lookupField, errEnv]
      | none =>
        simp [findBooksByKeyword, okInEnvelope, inEnvelope, hasField,
          getField, lookupField]
  · intro db title author py g now qr
    by_cases hv : (falsy title || falsy author) = true
    · simp [postApiBooks, hv, bodyOf, hasField, getField, lookupField]
    · cases qr with
      | some e =>
        simp [postApiBooks, hv, bodyOf, hasField, getField, lookupField]
      | none =>
        simp [postApiBooks, hv, bodyOf, hasField, getField, lookupField]
  · intro db qr
    cases qr with
    | some e => simp [getApiBooks, bodyOf, hasField, getField, lookupField]
    | none => simp [getApiBooks, bodyOf, hasField, getField]
  · intro db q qr
    by_cases hv : falsy q = true
    · simp [getApiBooksSearch, hv, bodyOf, hasField, getField, lookupField]
    · cases qr with
      | some e =>
        simp [getApiBooksSearch, hv, bodyOf, hasField, getField, lookupField]
      | none =>
        simp [getApiBooksSearch, hv, bodyOf, hasField, getField]
  · intro db idStr qr
    cases qr with
    | some e =>
      simp [getApiBooksId, bodyOf, hasField, getField, lookupField]
    | none =>
      cases hsel : sqlSelectById db (sqlStrToId idStr) with
      | nil =>
        simp [getApiBooksId, hsel, bodyOf, hasField, getField, lookupField]
      | cons b rest =>
        simp [getApiBooksId, hsel, bodyOf, hasField, getField, lookupField,
          bookJson]
  · intro db idStr title author py g now qr
    by_cases hv : (falsy title || falsy author) = true
    · simp [putApiBooksId, hv, bodyOf, hasField, getField, lookupField]
    · cases qr with
      | some e =>
        simp [putApiBooksId, hv, bodyOf, hasField, getField, lookupField]
      | none =>
        by_cases h0 : (sqlUpdateById db (sqlStrToId idStr) (title.getD "")
            (author.getD "") py g now).2 = 0
        · simp [putApiBooksId, hv, h0, bodyOf, hasField, getField,
            lookupField]
        · simp [putApiBooksId, hv, h0, bodyOf, hasField, getField,
            lookupField]
  · intro db idStr qr
    cases qr with
    | some e =>
      simp [deleteApiBooksId, bodyOf, hasField, getField, lookupField]
    | none =>
      by_cases h0 : (sqlDeleteById db (sqlStrToId idStr)).2 = 0
      · simp [deleteApiBooksId, h0, bodyOf, hasField, getField, lookupField]
      · simp [deleteApiBooksId, h0, bodyOf, hasField, getField, lookupField]

/-- Claim C2 counterexample: at a concrete store, a successful Update
through the live PUT endpoint answers 200 with an echo of the submitted
inputs: the body carries the route id as a string and has no created_at or
updated_at field, so it is not the refreshed record as stored. -/
theorem C2_update_echo_counterexample :
    statusOf (putApiBooksId ⟨[⟨1, "Dune", "Frank Herbert", some 1965,
        some "Sci-Fi", 5, 5⟩], 2⟩ "1" (some "Dune Messiah")
        (some "Frank Herbert") none none 9 none) = 200 ∧
    getField (bodyOf (putApiBooksId ⟨[⟨1, "Dune", "Frank Herbert",
        some 1965, some "Sci-Fi", 5, 5⟩], 2⟩ "1" (some "Dune Messiah")
        (some "Frank Herbert") none none 9 none)) "id" =
      some (Jv.jstr "1") ∧
    hasField (bodyOf (putApiBooksId ⟨[⟨1, "Dune", "Frank Herbert",
        some 1965, some "Sci-Fi", 5, 5⟩], 2⟩ "1" (some "Dune Messiah")
        (some "Frank Herbert") none none 9 none)) "created_at" = false ∧
    hasField (bodyOf (putApiBooksId ⟨[⟨1, "Dune", "Frank Herbert",
        some 1965, some "Sci-Fi", 5, 5⟩], 2⟩ "1" (some "Dune Messiah")
        (some "Frank Herbert") none none 9 none)) "updated_at" = false :=
  ⟨rfl, rfl, rfl, rfl⟩

/-- Claim C2 (amended): an Update through the live endpoint whose id
matches a row overwrites the four editable columns, refreshing updated_at
when the submitted values differ from the stored ones, but its success
response is only an echo of the submitted inputs with the raw id string and
no timestamps; the store as updated is re-read only by the unused
modifyBookById helper, which re-fetches after updating and returns the
re-read result set, under the driver pair resolution the array of rows with
the given id as stored after the update, in its envelope. -/
theorem C2_update_amended :
    (∀ db idStr t a py g now, ¬ t = "" → ¬ a = "" →
      0 < db.rows.countP (fun b => b.id == sqlStrToId idStr) →
      putApiBooksId db idStr (some t) (some a) py g now none =
        Except.ok ((200, Jv.jobj [("id", Jv.jstr idStr),
          ("title", Jv.jstr t), ("author", Jv.jstr a),
          ("published_year", jOptInt py), ("genre", jOptStr g)]),
          (sqlUpdateById db (sqlStrToId idStr) t a py g now).1, 1)) ∧
    (∀ db id t a py g now,
      (modifyBookById db id t a py g now none none none none).1 =
        Except.ok (Jv.jobj [("success", Jv.jbool true),
          ("message", Jv.jstr "Book retrieved successfully"),
          ("data", Jv.jarr ((sqlSelectById
            (sqlUpdateById db id t a py g now).1 id).map bookJson))]) ∧
      (modifyBookById db id t a py g now none none none none).2.1 =
        (sqlUpdateById db id t a py g now).1) := by
  constructor
  · intro db idStr t a py g now ht ha hsucc
    have hfal : (falsy (some t) || falsy (some a)) = false := by
      simp [falsy, ht, ha]
    have hne : ¬ (db.rows.countP
        (fun b => b.id == sqlStrToId idStr) = 0) := by omega
    simp [putApiBooksId, hfal, sqlUpdateById, hne]
  · intro db id t a py g now
    exact ⟨rfl, rfl⟩

/-- Witness for the amended C2 at a concrete store and update, discharging
the live-handler hypotheses. -/
theorem C2_update_amended_witness :
    (¬ "T2" = "") ∧
    (0 < (⟨[⟨1, "T", "A", none, none, 0, 0⟩], 2⟩ : DB).rows.countP
      (fun b => b.id == sqlStrToId "1")) ∧
    putApiBooksId ⟨[⟨1, "T", "A", none, none, 0, 0⟩], 2⟩ "1" (some "T2")
        (some "A2") none none 4 none =
      Except.ok ((200, Jv.jobj [("id", Jv.jstr "1"), ("title", Jv.jstr "T2"),
        ("author", Jv.jstr "A2"), ("published_year", jOptInt none),
        ("genre", jOptStr none)]),
        (sqlUpdateById ⟨[⟨1, "T", "A", none, none, 0, 0⟩], 2⟩
          (sqlStrToId "1") "T2" "A2" none none 4).1, 1) :=
  ⟨by decide, by decide,
   C2_update_amended.1 ⟨[⟨1, "T", "A", none, none, 0, 0⟩], 2⟩ "1" "T2" "A2"
     none none 4 (by decide) (by decide) (by decide)⟩

/-- Claim C3 counterexample: deleting an existing row through the live
DELETE endpoint answers 200 with only the deletion message; the body has no
data field and no record fields, so the record as it existed before
deletion is not returned. -/
theorem C3_delete_message_counterexample :
    deleteApiBooksId ⟨[⟨1, "Dune", "Frank Herbert", some 1965,
        some "Sci-Fi", 5, 5⟩], 2⟩ "1" none =
      Except.ok ((200, Jv.jobj [("message", Jv.jstr "Book deleted")]),
        ⟨[], 2⟩, 1) ∧
    hasField (bodyOf (deleteApiBooksId ⟨[⟨1, "Dune", "Frank Herbert",
        some 1965, some "Sci-Fi", 5, 5⟩], 2⟩ "1" none)) "data" = false ∧
    hasField (bodyOf (deleteApiBooksId ⟨[⟨1, "Dune", "Frank Herbert",
        some 1965, some "Sci-Fi", 5, 5⟩], 2⟩ "1" none)) "id" = false :=
  ⟨rfl, rfl, rfl⟩

/-- Claim C3 (amended): Delete through the live endpoint on a matching id
removes the row but responds with only the deletion message; the
read-before-delete pattern lives only in the unused removeBookById helper,
which reads the rows with the given id before the DELETE and returns that
pre-deletion result set, under the driver pair resolution an array, in its
envelope. -/
theorem C3_delete_amended :
    (∀ db idStr, 0 < db.rows.countP (fun b => b.id == sqlStrToId idStr) →
      deleteApiBooksId db idStr none =
        Except.ok ((200, Jv.jobj [("message", Jv.jstr "Book deleted")]),
          ⟨db.rows.filter (fun b => !(b.id == sqlStrToId idStr)),
            db.nextId⟩, 1)) ∧
    (∀ db id,
      (removeBookById db id none none none none).1 =
        Except.ok (Jv.jobj [("success", Jv.jbool true),
          ("message", Jv.jstr "Book deleted successfully"),
          ("data", Jv.jarr ((sqlSelectById db id).map bookJson))]) ∧
      (removeBookById db id none none none none).2.1 =
        ⟨db.rows.filter (fun b2 => !(b2.id == id)), db.nextId⟩) := by
  constructor
  · intro db idStr hsucc
    have hne : ¬ (db.rows.countP
        (fun b => b.id == sqlStrToId idStr) = 0) := by omega
    simp [deleteApiBooksId, sqlDeleteById, hne]
  · intro db id
    constructor
    · simp [removeBookById, fetchBookById, isSuccessEnv, getField,
        lookupField]
    · simp [removeBookById, fetchBookById, isSuccessEnv, getField,
        lookupField, sqlDeleteById]

/-- Witness for the amended C3 at a concrete one-row store, discharging
the live-handler hypothesis. -/
theorem C3_delete_amended_witness :
    (0 < (⟨[⟨1, "T", "A", none, none, 0, 0⟩], 2⟩ : DB).rows.countP
      (fun b => b.id == sqlStrToId "1")) ∧
    deleteApiBooksId ⟨[⟨1, "T", "A", none, none, 0, 0⟩], 2⟩ "1" none =
      Except.ok ((200, Jv.jobj [("message", Jv.jstr "Book deleted")]),
        ⟨(⟨[⟨1, "T", "A", none, none, 0, 0⟩], 2⟩ : DB).rows.filter
          (fun b => !(b.id == sqlStrToId "1")), 2⟩, 1) :=
  ⟨by decide,
   C3_delete_amended.1 ⟨[⟨1, "T", "A", none, none, 0, 0⟩], 2⟩ "1"
     (by decide)⟩

/-- Claim C4 counterexample: the search term is spliced into a LIKE pattern,
so at the term consisting of one percent sign the live endpoint returns
rows that do not contain that character at all (the claim demands the empty
set there); and with two matching rows the endpoint returns them in table
order with ascending created_at, not the descending order the claim
demands, since its query has no ORDER BY. -/
theorem C4_search_counterexample :
    bodyOf (getApiBooksSearch ⟨[⟨1, "alpha", "x", none, some "g1", 1, 1⟩,
        ⟨2, "beta", "y", none, none, 2, 2⟩], 3⟩ (some "%") none) =
      Jv.jarr [bookJson ⟨1, "alpha", "x", none, some "g1", 1, 1⟩,
        bookJson ⟨2, "beta", "y", none, none, 2, 2⟩] ∧
    specMatches "%" ⟨1, "alpha", "x", none, some "g1", 1, 1⟩ = false ∧
    specMatches "%" ⟨2, "beta", "y", none, none, 2, 2⟩ = false ∧
    (sqlSearch ⟨[⟨1, "alpha", "x", none, some "g1", 1, 1⟩,
        ⟨2, "beta", "y", none, none, 2, 2⟩], 3⟩ "a").map
      (fun b => b.created_at) = [1, 2] ∧
    ¬ (sqlSearch ⟨[⟨1, "alpha", "x", none, some "g1", 1, 1⟩,
        ⟨2, "beta", "y", none, none, 2, 2⟩], 3⟩ "a").Pairwise
      (fun x y => y.created_at ≤ x.created_at) := by
  refine ⟨rfl, by decide, by decide, rfl, by decide⟩

/-- Claim C4 (amended): for every wildcard-free non-empty term the live
search endpoint returns exactly the set of rows whose title, author, or
genre contains the term case-insensitively, but in table order, as its
query has no ORDER BY; the created_at-descending order belongs to the
query of the unused findBooksByKeyword helper, whose result set is the
same and whose response wraps the ordered rows inside the driver result
pair; a term matching nothing yields a successful response with an empty
array. -/
theorem C4_search_amended (q : String) (db : DB)
    (hclean : cleanTerm q = true) (hne : ¬ q = "") :
    (bodyOf (getApiBooksSearch db (some q) none) =
       Jv.jarr ((db.rows.filter (specMatches q)).map bookJson) ∧
     statusOf (getApiBooksSearch db (some q) none) = 200) ∧
    (∀ b : Book, b ∈ sqlSearch db q ↔ b ∈ db.rows ∧ specMatches q b = true) ∧
    (∀ b : Book,
      b ∈ sqlSearchOrdered db q ↔ b ∈ db.rows ∧ specMatches q b = true) ∧
    (sqlSearchOrdered db q).Pairwise
      (fun x y => y.created_at ≤ x.created_at) ∧
    (findBooksByKeyword db q none none).1 =
      Except.ok (Jv.jobj [("success", Jv.jbool true),
        ("message", Jv.jstr "Search completed successfully"),
        ("count", Jv.jnum 2),
        ("searchTerm", Jv.jstr q),
        ("data", Jv.jarr [Jv.jarr ((sqlSearchOrdered db q).map bookJson),
          Jv.jmeta])]) ∧
    ((∀ b ∈ db.rows, specMatches q b = false) →
      bodyOf (getApiBooksSearch db (some q) none) = Jv.jarr []) := by
  have hfalsy : falsy (some q) = false := by simp [falsy, hne]
  have hfeq : db.rows.filter (rowMatchesLike q) =
      db.rows.filter (specMatches q) :=
    List.filter_congr (fun b _ => rowMatchesLike_clean q hclean b)
  refine ⟨⟨?_, ?_⟩, ?_, ?_, ?_, ?_, ?_⟩
  · simp [getApiBooksSearch, hfalsy, bodyOf, sqlSearch, hfeq]
  · simp [getApiBooksSearch, hfalsy, statusOf]
  · intro b
    rw [sqlSearch, List.mem_filter, rowMatchesLike_clean q hclean b]
  · intro b
    rw [sqlSearchOrdered, mem_sortByCreatedDesc, List.mem_filter,
      rowMatchesLike_clean q hclean b]
  · exact pairwise_sortByCreatedDesc _
  · rfl
  · intro h
    have hnil : db.rows.filter (rowMatchesLike q) = [] := by
      apply List.filter_eq_nil_iff.mpr
      intro b hb
      rw [rowMatchesLike_clean q hclean b]
      simp [h b hb]
    simp [getApiBooksSearch, hfalsy, bodyOf, sqlSearch, hnil]

/-- Witness for the amended C4 at a concrete one-row store: a matching term
and a term matching nothing. -/
theorem C4_search_amended_witness :
    cleanTerm "un" = true ∧ (¬ "un" = "") ∧
    bodyOf (getApiBooksSearch ⟨[⟨1, "Dune", "FH", none, none, 1, 1⟩], 2⟩
        (some "un") none) =
      Jv.jarr (((⟨[⟨1, "Dune", "FH", none, none, 1, 1⟩], 2⟩ : DB).rows.filter
        (specMatches "un")).map bookJson) ∧
    bodyOf (getApiBooksSearch ⟨[⟨1, "Dune", "FH", none, none, 1, 1⟩], 2⟩
        (some "zz") none) = Jv.jarr [] :=
  ⟨by decide, by decide,
   (C4_search_amended "un" ⟨[⟨1, "Dune", "FH", none, none, 1, 1⟩], 2⟩
     (by decide) (by decide)).1.1,
   (C4_search_amended "zz" ⟨[⟨1, "Dune", "FH", none, none, 1, 1⟩], 2⟩
     (by decide) (by decide)).2.2.2.2.2 (by decide)⟩

/-- Claim C8 counterexample: a failure to obtain a connection from the pool
inside the insertNewBook helper meets no catch in that function and escapes
to the caller as a rejection, instead of being converted to the uniform
error envelope. -/
theorem C8_escape_counterexample :
    insertNewBook ⟨[], 1⟩ "T" "A" none none 0 (some "ECONNREFUSED") none =
      (Except.error "ECONNREFUSED", ⟨[], 1⟩, []) := rfl

/-- Claim C8 (amended): every query failure is caught at the operation
boundary: each data-access helper converts it to its success-false
envelope carrying the message, and each live handler responds 500 with the
raw message rather than the full envelope; a failure to obtain a pool
connection, however, escapes the helpers uncaught (the nested fetch
acquisition inside removeBookById is the one pool failure a catch does
intercept). -/
theorem C8_error_paths_amended :
    (∀ db t a py g now e, insertNewBook db t a py g now none (some e) =
      (Except.ok (errEnv "Error creating book" e), db,
        [PEv.acq 0, PEv.rel 0])) ∧
    (∀ db e, fetchAllBooks db none (some e) =
      (Except.ok (errEnv "Error fetching books" e), db,
        [PEv.acq 0, PEv.rel 0])) ∧
    (∀ db id c e, fetchBookById db id c none (some e) =
      (Except.ok (errEnv "Error fetching book" e), db,
        [PEv.acq c, PEv.rel c])) ∧
    (∀ db id t a py g now e,
      modifyBookById db id t a py g now none (some e) none none =
        (Except.ok (errEnv "Error updating book" e), db,
          [PEv.acq 0, PEv.rel 0])) ∧
    (∀ db id e, removeBookById db id none (some e) none none =
      (Except.ok (errEnv "Error deleting book" e), db,
        [PEv.acq 0, PEv.rel 0])) ∧
    (∀ db q e, findBooksByKeyword db q none (some e) =
      (Except.ok (errEnv "Error searching books" e), db,
        [PEv.acq 0, PEv.rel 0])) ∧
    (∀ db e, getApiBooks db (some e) =
      Except.ok ((500, Jv.jobj [("error", Jv.jstr e)]), db, 1)) ∧
    (∀ db idStr e, getApiBooksId db idStr (some e) =
      Except.ok ((500, Jv.jobj [("error", Jv.jstr e)]), db, 1)) ∧
    (∀ db idStr e, deleteApiBooksId db idStr (some e) =
      Except.ok ((500, Jv.jobj [("error", Jv.jstr e)]), db, 1)) :=
  ⟨fun _ _ _ _ _ _ _ => rfl, fun _ _ => rfl, fun _ _ _ _ => rfl,
   fun _ _ _ _ _ _ _ _ => rfl, fun _ _ _ => rfl, fun _ _ _ => rfl,
   fun _ _ => rfl, fun _ _ _ => rfl, fun _ _ _ => rfl⟩

/-- Connection acquired and released once is a well-formed trace. -/
theorem wfTrace_pair (c : Nat) : wfTrace [PEv.acq c, PEv.rel c] = true := by
  simp [wfTrace, runTrace]

/-- Claim C9: every data-access helper releases each connection it acquires
exactly once on every control path, success, not-found, and data-access
error alike, including the nested acquisitions of the Update re-fetch and
of the Delete read-before-delete; no path releases a connection twice or
leaks one. -/
theorem C9_pool_release_once :
    (∀ db t a py g now gc qr,
      wfTrace (insertNewBook db t a py g now gc qr).2.2 = true) ∧
    (∀ db gc qr, wfTrace (fetchAllBooks db gc qr).2.2 = true) ∧
    (∀ db id c gc qr, wfTrace (fetchBookById db id c gc qr).2.2 = true) ∧
    (∀ db id t a py g now gc qUpd gcF qF,
      wfTrace (modifyBookById db id t a py g now gc qUpd gcF qF).2.2 =
        true) ∧
    (∀ db id gc gcF qF qd,
      wfTrace (removeBookById db id gc gcF qF qd).2.2 = true) ∧
    (∀ db q gc qr, wfTrace (findBooksByKeyword db q gc qr).2.2 = true) := by
  refine ⟨?_, ?_, ?_, ?_, ?_, ?_⟩
  · intro db t a py g now gc qr
    cases gc with
    | some e => rfl
    | none => cases qr with
      | some e => exact wfTrace_pair 0
      | none => exact wfTrace_pair 0
  · intro db gc qr
    cases gc with
    | some e => rfl
    | none => cases qr with
      | some e => exact wfTrace_pair 0
      | none => exact wfTrace_pair 0
  · intro db id c gc qr
    cases gc with
    | some e => rfl
    | none =>
      cases qr with
      | some e => exact wfTrace_pair c
      | none => exact wfTrace_pair c
  · intro db id t a py g now gc qUpd gcF qF
    cases gc with
    | some e => rfl
    | none =>
      cases qUpd with
      | some e => exact wfTrace_pair 0
      | none =>
        cases gcF with
        | some e => simp [modifyBookById, fetchBookById, wfTrace,
            runTrace]
        | none =>
          cases qF with
          | some e => simp [modifyBookById, fetchBookById, wfTrace,
              runTrace]
          | none => simp [modifyBookById, fetchBookById, wfTrace,
              runTrace]
  · intro db id gc gcF qF qd
    cases gc with
    | some e => rfl
    | none =>
      cases gcF with
      | some e => simp [removeBookById, fetchBookById, wfTrace, runTrace]
      | none =>
        cases qF with
        | some e => simp [removeBookById, fetchBookById, isSuccessEnv,
            errEnv, getField, lookupField, wfTrace, runTrace]
        | none =>
          cases qd with
          | some e => simp [removeBookById, fetchBookById,
              isSuccessEnv, getField, lookupField, wfTrace, runTrace]
          | none => simp [removeBookById, fetchBookById,
              isSuccessEnv, getField, lookupField, wfTrace, runTrace]
  · intro db q gc qr
    cases gc with
    | some e => rfl
    | none => cases qr with
      | some e => exact wfTrace_pair 0
      | none => exact wfTrace_pair 0

/-- Claim C10: every request to the six live book endpoints is answered by
the handler itself: each attaches its own catch and on a data-access
failure responds directly with status 500 and the raw error message, so no
data-access error ever reaches the final error-handling middleware and its
store fault-code remapping branches from these endpoints. -/
theorem C10_middleware_unreachable :
    (∀ db title author py g now qr,
      handled (postApiBooks db title author py g now qr) = true) ∧
    (∀ db qr, handled (getApiBooks db qr) = true) ∧
    (∀ db q qr, handled (getApiBooksSearch db q qr) = true) ∧
    (∀ db idStr qr, handled (getApiBooksId db idStr qr) = true) ∧
    (∀ db idStr title author py g now qr,
      handled (putApiBooksId db idStr title author py g now qr) = true) ∧
    (∀ db idStr qr, handled (deleteApiBooksId db idStr qr) = true) ∧
    (∀ db title author py g now e, (falsy title || falsy author) = false →
      postApiBooks db title author py g now (some e) =
        Except.ok ((500, Jv.jobj [("error", Jv.jstr e)]), db, 1)) ∧
    (∀ db q e, falsy q = false → getApiBooksSearch db q (some e) =
      Except.ok ((500, Jv.jobj [("error", Jv.jstr e)]), db, 1)) ∧
    (∀ db idStr title author py g now e,
      (falsy title || falsy author) = false →
      putApiBooksId db idStr title author py g now (some e) =
        Except.ok ((500, Jv.jobj [("error", Jv.jstr e)]), db, 1)) := by
  refine ⟨?_, ?_, ?_, ?_, ?_, ?_, ?_, ?_, ?_⟩
  · intro db title author py g now qr
    by_cases hv : (falsy title || falsy author) = true
    · simp [postApiBooks, hv, handled]
    · cases qr with
      | some e => simp [postApiBooks, hv, handled]
      | none => simp [postApiBooks, hv, handled]
  · intro db qr
    cases qr with
    | some e => rfl
    | none => rfl
  · intro db q qr
    by_cases hv : falsy q = true
    · simp [getApiBooksSearch, hv, handled]
    · cases qr with
      | some e => simp [getApiBooksSearch, hv, handled]
      | none => simp [getApiBooksSearch, hv, handled]
  · intro db idStr qr
    cases qr with
    | some e => rfl
    | none =>
      cases hsel : sqlSelectById db (sqlStrToId idStr) with
      | nil => simp [getApiBooksId, hsel, handled]
      | cons b rest => simp [getApiBooksId, hsel, handled]
  · intro db idStr title author py g now qr
    by_cases hv : (falsy title || falsy author) = true
    · simp [putApiBooksId, hv, handled]
    · cases qr with
      | some e => simp [putApiBooksId, hv, handled]
      | none =>
        by_cases h0 : (sqlUpdateById db (sqlStrToId idStr) (title.getD "")
            (author.getD "") py g now).2 = 0
        · simp [putApiBooksId, hv, h0, handled]
        · simp [putApiBooksId, hv, h0, handled]
  · intro db idStr qr
    cases qr with
    | some e => rfl
    | none =>
      by_cases h0 : (sqlDeleteById db (sqlStrToId idStr)).2 = 0
      · simp [deleteApiBooksId, h0, handled]
      · simp [deleteApiBooksId, h0, handled]
  · intro db title author py g now e hv
    simp [postApiBooks, hv]
  · intro db q e hv
    simp [getApiBooksSearch, hv]
  · intro db idStr title author py g now e hv
    simp [putApiBooksId, hv]

/-- Witness for C10 at concrete valid requests with a failing store call,
covering the Create, Search, and Update 500 conjuncts. -/
theorem C10_middleware_unreachable_witness :
    (falsy (some "T") || falsy (some "A")) = false ∧
    postApiBooks ⟨[], 1⟩ (some "T") (some "A") none none 3
        (some "ER_DUP_ENTRY") =
      Except.ok ((500, Jv.jobj [("error", Jv.jstr "ER_DUP_ENTRY")]),
        ⟨[], 1⟩, 1) ∧
    getApiBooksSearch ⟨[], 1⟩ (some "x") (some "boom") =
      Except.ok ((500, Jv.jobj [("error", Jv.jstr "boom")]), ⟨[], 1⟩, 1) ∧
    putApiBooksId ⟨[], 1⟩ "1" (some "T") (some "A") none none 3
        (some "boom") =
      Except.ok ((500, Jv.jobj [("error", Jv.jstr "boom")]), ⟨[], 1⟩, 1) :=
  ⟨by decide,
   C10_middleware_unreachable.2.2.2.2.2.2.1 ⟨[], 1⟩ (some "T") (some "A")
     none none 3 "ER_DUP_ENTRY" (by decide),
   C10_middleware_unreachable.2.2.2.2.2.2.2.1 ⟨[], 1⟩ (some "x") "boom"
     (by decide),
   C10_middleware_unreachable.2.2.2.2.2.2.2.2 ⟨[], 1⟩ "1" (some "T")
     (some "A") none none 3 "boom" (by decide)⟩
